import Mathlib

/-!
# Verification of the dalekjs command-correlation, assertion and tunnel core

A shallow embedding of the parts of the dalekjs source that the claims talk
about:

* the JS value / coercion model needed by the assertion comparison functions
  (`lib/dalek/assertions.js`, here from `src/unnamed/part_004`);
* the assertion and action `driver:message` callbacks and the chained test
  helpers (`Assertions.prototype._generateCallbackAssertion`,
  `Actions.prototype._generateCallbackAssertion`,
  `Assertions.prototype.generateTestHelper`);
* the action queue (`Actions.prototype._addToActionQueue`,
  `Unit.prototype._testFinished` from `lib/dalek/unit.js`), run under an
  arbitrary interleaving of queue steps and message deliveries;
* the test unit expectation counter (`Unit.prototype.expect`,
  `Unit.prototype.checkExpectations`);
* the remote host tunnel (`lib/dalek/host.js`: `_createServer`,
  `_onProxyRequest`, `_onProxyRequestEnd`).

Machine floats of JS are modelled as exact rationals (`Rat`), with a separate
`nan` value; the decimal literals appearing in any of the claims are exactly
representable, so the comparisons below agree with the IEEE ones on them.
-/

namespace DalekSpec

/-! ## JS values

The subset of JS values that flows through the assertion layer: `undefined`,
`null`, `NaN`, booleans, (non-NaN) numbers and strings. -/

inductive JsVal where
  | undef : JsVal
  | null : JsVal
  | nan : JsVal
  | bool : Bool → JsVal
  | num : Rat → JsVal
  | str : String → JsVal
deriving DecidableEq, Repr

/-- Parse a run of decimal digits: returns the accumulated value, the number
of digits consumed and the rest of the input. -/
def parseDigitsAux : List Char → Nat → Nat → (Nat × Nat × List Char)
  | [], acc, n => (acc, n, [])
  | c :: cs, acc, n =>
    if c.isDigit then parseDigitsAux cs (acc * 10 + (c.toNat - 48)) (n + 1)
    else (acc, n, c :: cs)

/-- Parse an unsigned decimal literal `digits [ . digits ]` from the front of
the input (at least one digit overall), as JS numeric literal parsing does;
exponents are not modelled (no claim needs them). -/
def parseDecPrefix (cs : List Char) : Option (Rat × List Char) :=
  let (ipart, icount, rest) := parseDigitsAux cs 0 0
  match rest with
  | '.' :: rest2 =>
    let (fpart, fcount, rest3) := parseDigitsAux rest2 0 0
    if icount = 0 ∧ fcount = 0 then none
    else some ((ipart : Rat) + (fpart : Rat) / ((10 : Rat) ^ fcount), rest3)
  | _ => if icount = 0 then none else some ((ipart : Rat), rest)

/-- Parse an optionally signed decimal literal from the front of the input. -/
def parseSignedPrefix (cs : List Char) : Option (Rat × List Char) :=
  match cs with
  | '-' :: rest => (parseDecPrefix rest).map (fun p => (-p.1, p.2))
  | '+' :: rest => parseDecPrefix rest
  | _ => parseDecPrefix cs

/-- Whitespace skipping used by `parseFloat` and `ToNumber`. -/
def isJsWs (c : Char) : Bool := c = ' ' ∨ c = '\t' ∨ c = '\n' ∨ c = '\r'

/-- JS `parseFloat` on a string: skip leading whitespace, then parse the
longest signed decimal prefix; `none` is `NaN`. -/
def parseFloatString (s : String) : Option Rat :=
  (parseSignedPrefix (s.data.dropWhile isJsWs)).map Prod.fst

/-- JS `ToNumber` on a string: the whole (trimmed) string must be a numeric
literal; the empty string is `0`; `none` is `NaN`. -/
def toNumberString (s : String) : Option Rat :=
  let cs := ((s.data.dropWhile isJsWs).reverse.dropWhile isJsWs).reverse
  if cs.isEmpty then some 0
  else
    match parseSignedPrefix cs with
    | some (q, []) => some q
    | _ => none

/-- JS `ToNumber` on the modelled values; `none` is `NaN`. -/
def toNumber : JsVal → Option Rat
  | .undef => none
  | .null => some 0
  | .nan => none
  | .bool b => some (if b then 1 else 0)
  | .num q => some q
  | .str s => toNumberString s

/-- JS `parseFloat` on the modelled values (the argument is stringified
first, so `null`, booleans and `undefined` all give `NaN`). -/
def parseFloatJs : JsVal → JsVal
  | .num q => .num q
  | .str s =>
    match parseFloatString s with
    | some q => .num q
    | none => .nan
  | _ => .nan

/-- JS loose equality `==` on the modelled values (what `chai.assert.equal`
uses). -/
def jsLooseEq : JsVal → JsVal → Bool
  | .undef, .undef | .undef, .null | .null, .undef | .null, .null => true
  | .num a, .num b => a = b
  | .str a, .str b => a = b
  | .bool a, .bool b => a = b
  | .num a, .str s | .str s, .num a =>
    (match toNumberString s with
     | some q => decide (a = q)
     | none => false)
  | .bool b, .num a | .num a, .bool b => a = (if b then (1 : Rat) else 0)
  | .bool b, .str s | .str s, .bool b =>
    (match toNumberString s with
     | some q => decide (q = (if b then (1 : Rat) else 0))
     | none => false)
  | _, _ => false

/-- JS relational `a > b` (`chai`'s `above` assertion): lexicographic on two
strings, otherwise numeric after `ToNumber`, false when either side is
`NaN`. -/
def jsGt : JsVal → JsVal → Bool
  | .str a, .str b => decide (b < a)
  | a, b =>
    match toNumber a, toNumber b with
    | some x, some y => decide (y < x)
    | _, _ => false

/-- JS relational `a < b` (`chai`'s `below` assertion). -/
def jsLt : JsVal → JsVal → Bool
  | .str a, .str b => decide (a < b)
  | a, b =>
    match toNumber a, toNumber b with
    | some x, some y => decide (x < y)
    | _, _ => false

/-- JS `a - 1` as it appears in `_testGreaterThanEqual`: numeric coercion,
`NaN` propagates. -/
def jsSubOne (a : JsVal) : JsVal :=
  match toNumber a with
  | some q => .num (q - 1)
  | none => .nan

/-- JS `a + 1` as it appears in `_testLowerThanEqual`: string concatenation
when `a` is a string, numeric addition otherwise. -/
def jsAddOne : JsVal → JsVal
  | .str s => .str (s ++ "1")
  | a =>
    match toNumber a with
    | some q => .num (q + 1)
    | none => .nan

/-- JS truthiness, used by the `!opts.expected` guard of the base assertion
callback. -/
def jsTruthy : JsVal → Bool
  | .undef | .null | .nan => false
  | .bool b => b
  | .num q => q ≠ 0
  | .str s => s ≠ ""

/-! ## Assertion comparison functions

One Lean function per `Assertions.prototype._test*` method of
`src/unnamed/part_004`. -/

/-- Embeds `Assertions.prototype._testShallowEquals`: `chai.assert.equal(a, b)`
(loose `==`), `false` when the assertion throws. -/
def testShallowEquals (a b : JsVal) : Bool := jsLooseEq a b

/-- Embeds `Assertions.prototype._testShallowUnequals`: `chai.assert.notEqual`. -/
def testShallowUnequals (a b : JsVal) : Bool := !(jsLooseEq a b)

/-- Embeds `Assertions.prototype._testTruthy`: `a === 'true' || a === true`. -/
def testTruthy (a : JsVal) : Bool := a = .str "true" ∨ a = .bool true

/-- Embeds `Assertions.prototype._testFalsy`: `a === 'false' || a === false`. -/
def testFalsy (a : JsVal) : Bool := a = .str "false" ∨ a = .bool false

/-- Embeds `Assertions.prototype._testGreaterThan`: optionally `parseFloat` both
operands, then `chai.expect(b).to.be.above(a)`, i.e. `b > a`. -/
def testGreaterThan (a b : JsVal) (parseFloatOnValues : Bool) : Bool :=
  let a := if parseFloatOnValues then parseFloatJs a else a
  let b := if parseFloatOnValues then parseFloatJs b else b
  jsGt b a

/-- Embeds `Assertions.prototype._testLowerThan`: optionally `parseFloat` both
operands, then `chai.expect(b).to.be.below(a)`, i.e. `b < a`. -/
def testLowerThan (a b : JsVal) (parseFloatOnValues : Bool) : Bool :=
  let a := if parseFloatOnValues then parseFloatJs a else a
  let b := if parseFloatOnValues then parseFloatJs b else b
  jsLt b a

/-- Embeds `Assertions.prototype._testGreaterThanEqual`: literally
`this._testGreaterThan(a - 1, b)` — note that the `parseFloatOnValues`
argument is not forwarded. -/
def testGreaterThanEqual (a b : JsVal) : Bool :=
  testGreaterThan (jsSubOne a) b false

/-- Embeds `Assertions.prototype._testLowerThanEqual`: literally
`this._testLowerThan(a + 1, b)`. -/
def testLowerThanEqual (a b : JsVal) : Bool :=
  testLowerThan (jsAddOne a) b false

/-- The comparison functions a queued assertion or chained helper can carry
(the ones the claims touch; `between`/`contain`/`match` take no part in any
claim). -/
inductive TestFn where
  | shallowEquals | shallowUnequals | truthy | falsy
  | greaterThan | lowerThan | greaterThanEqual | lowerThanEqual
deriving DecidableEq, Repr

/-- Dispatch of `test(a, b, parseFloatOnValues)` as the base assertion
callback calls it; the one- and two-argument functions ignore the extra
arguments just as their JS counterparts do. -/
def applyTestFn : TestFn → JsVal → JsVal → Bool → Bool
  | .shallowEquals, a, b, _ => testShallowEquals a b
  | .shallowUnequals, a, b, _ => testShallowUnequals a b
  | .truthy, a, _, _ => testTruthy a
  | .falsy, a, _, _ => testFalsy a
  | .greaterThan, a, b, pf => testGreaterThan a b pf
  | .lowerThan, a, b, pf => testLowerThan a b pf
  | .greaterThanEqual, a, b, _ => testGreaterThanEqual a b
  | .lowerThanEqual, a, b, _ => testLowerThanEqual a b

/-! ## Result messages, test-unit state and `driver:message` listeners

The shared channel carries `{key, hash, uuid, value}` payloads; for the
in-browser `execute` results the payload additionally carries a `dalek`
context-variable object and a `test` array of `{ok, message}` records — these
two are split into their own fields here. -/

/-- One `{ok, message}` record of an `execute` result's `test` array. -/
structure ExecTestEntry where
  ok : Bool
  message : String
deriving DecidableEq, Repr

/-- A `driver:message` payload. -/
structure ResultMessage where
  key : String
  hash : String
  uuid : String
  value : JsVal := .str ""
  execDalek : List (String × JsVal) := []
  execTest : List ExecTestEntry := []
deriving DecidableEq, Repr

/-- The `{key, type, test, hash, opts, data}` record the base assertion
callback caches as `this._lastGeneratedAction` (only the fields the chained
helpers read are kept: the comparison function and opts do not flow onward).
`atype` is the record's `type` field. -/
structure LastAction where
  key : String
  atype : String
  hash : String
  value : JsVal
deriving DecidableEq, Repr

/-- One `report:assertion` event (the fields the claims mention). -/
structure Report where
  success : Bool
  rtype : String
deriving DecidableEq, Repr

/-- The options object handed to `_generateCallbackAssertion`; an absent
`expected` is `undefined`. -/
structure AssertOpts where
  expected : JsVal := .undef
  parseFloatOnValues : Bool := false
  message : String := ""
deriving DecidableEq, Repr

/-- The mutable per-test state the `driver:message` callbacks touch: the
unit's assertion counters (`lib/dalek/unit.js`), its `uuids` dedup map and
`contextVars`, the assertion instance's `proceeded` dedup map and
`_lastGeneratedAction` cache, and the stream of emitted `report:assertion` /
`report:action` events. -/
structure UnitState where
  runnedExpactations : Nat := 0
  failedAssertions : Nat := 0
  uuids : List String := []
  proceeded : List String := []
  lastGeneratedAction : Option LastAction := none
  contextVars : List (String × JsVal) := []
  reports : List Report := []
  actionReports : List (String × String) := []
deriving DecidableEq, Repr

/-- The keys for which the base assertion callback bails out when no
expected value was supplied (`part_004`, line 1607). -/
def getterKeys : List String :=
  ["title", "width", "height", "url", "text", "attribute",
   "numberOfElements", "numberOfVisibleElements"]

/-- A listener registered on the shared `driver:message` channel: a base
assertion callback (`Assertions.prototype._generateCallbackAssertion`), an
action callback (`Actions.prototype._generateCallbackAssertion`), or a
chained-helper listener (`Assertions.prototype.generateTestHelper`). A
helper listener stores the last element of the captured `gen.opts` array
(the issuing assertion's hash) and the helper's name, comparison function,
negate flag and expected value. -/
inductive Listener where
  | assertionCb (key atype : String) (fn : TestFn) (hash : String) (opts : AssertOpts)
  | actionCb (key atype : String)
  | helperCb (genHash : Option String) (name : String) (fn : TestFn)
      (negate : Bool) (expected : JsVal) (message : String)
deriving DecidableEq, Repr

/-- Embeds `Assertions.prototype._generateCallbackAssertion`'s callback: on a
message with matching `key` and `hash`, cache it as `_lastGeneratedAction`;
bail out when no expected value was given and the key is getter-style;
otherwise run the comparison, emit `report:assertion` and bump the counters.
(The `typeof opts.expected === 'function'` branch is not modelled: the
modelled value space has no functions.) -/
def deliverAssertion (key atype : String) (fn : TestFn) (hash : String)
    (opts : AssertOpts) (m : ResultMessage) (u : UnitState) : UnitState :=
  if m.key = key ∧ m.hash = hash then
    let la : LastAction := { key := key, atype := atype, hash := hash, value := m.value }
    let u := { u with lastGeneratedAction := some la }
    if jsTruthy opts.expected = false ∧ key ∈ getterKeys then u
    else
      let tr := applyTestFn fn m.value opts.expected opts.parseFloatOnValues
      { u with
        reports := u.reports ++ [{ success := tr, rtype := atype }],
        runnedExpactations := u.runnedExpactations + 1,
        failedAssertions := u.failedAssertions + (if tr then 0 else 1) }
  else u

/-- Insert-or-overwrite for the `contextVars` object. -/
def setVar (k : String) (v : JsVal) (vars : List (String × JsVal)) :
    List (String × JsVal) :=
  if vars.any (fun p => p.1 = k) then
    vars.map (fun p => if p.1 = k then (k, v) else p)
  else vars ++ [(k, v)]

/-- Embeds `Actions.prototype._generateCallbackAssertion`'s callback: on a message
with matching `key` whose `uuid` was not seen before, for an `execute`
result copy the `dalek` variables and report/count each in-browser `test`
entry, then mark the `uuid` as seen and emit `report:action`. The `hash` of
the message is never consulted. -/
def deliverAction (key atype : String) (m : ResultMessage) (u : UnitState) :
    UnitState :=
  if m.key = key ∧ m.uuid ∉ u.uuids then
    let u :=
      if key = "execute" then
        let u := { u with contextVars :=
          m.execDalek.foldl (fun vs p => setVar p.1 p.2 vs) u.contextVars }
        m.execTest.foldl (fun u t =>
          { u with
            reports := u.reports ++ [{ success := t.ok, rtype := "OK" }],
            runnedExpactations := u.runnedExpactations + 1,
            failedAssertions := u.failedAssertions + (if t.ok then 0 else 1) }) u
      else u
    { u with
      uuids := u.uuids ++ [m.uuid],
      actionReports := u.actionReports ++ [(atype, m.uuid)] }
  else u

/-- Embeds `Assertions.prototype.generateTestHelper`'s listener: it ignores the
delivered message entirely; when the captured hash is the cached
`_lastGeneratedAction`'s hash and `proceeded[hash + name]` is unset, run the
(possibly negated) two-argument comparison against the cached value, set the
`proceeded` key, emit `report:assertion` and bump the counters. -/
def deliverHelper (genHash : Option String) (name : String) (fn : TestFn)
    (negate : Bool) (expected : JsVal) (u : UnitState) : UnitState :=
  match genHash, u.lastGeneratedAction with
  | some gh, some la =>
    if gh ≠ "" ∧ la.hash ≠ "" ∧ gh = la.hash ∧ (la.hash ++ name) ∉ u.proceeded
    then
      let tr0 := applyTestFn fn expected la.value false
      let tr := if negate then !tr0 else tr0
      { u with
        proceeded := u.proceeded ++ [la.hash ++ name],
        reports := u.reports ++ [{ success := tr, rtype := la.atype }],
        runnedExpactations := u.runnedExpactations + 1,
        failedAssertions := u.failedAssertions + (if tr then 0 else 1) }
    else u
  | _, _ => u

/-- Deliver one message to one listener. -/
def deliver (l : Listener) (m : ResultMessage) (u : UnitState) : UnitState :=
  match l with
  | .assertionCb key atype fn hash opts => deliverAssertion key atype fn hash opts m u
  | .actionCb key atype => deliverAction key atype m u
  | .helperCb genHash name fn negate expected _ =>
    deliverHelper genHash name fn negate expected u

/-- Deliver one message to every registered listener, in registration order
(`EventEmitter2` emits synchronously in subscription order). -/
def deliverMessage (ls : List Listener) (m : ResultMessage) (u : UnitState) :
    UnitState :=
  ls.foldl (fun u l => deliver l m u) u

/-! ## The action queue and its execution

`Actions.prototype._addToActionQueue` (`src/unnamed/part_005`) pushes a
zero-argument closure; when its turn comes the closure appends a fresh uuid
to the call arguments, invokes the named driver method and resolves — or
rejects when the driver lacks the method — and in either case subscribes the
correlation callback to the shared channel.

`Unit.prototype._testFinished` (`lib/dalek/unit.js`) chains the closures as
`result = result.then(f).fail(h)`: each closure runs only after the previous
promise settled, and the `fail` handler `h` logs and calls `process.exit(0)`,
so a rejection halts the whole run. Since every closure settles its promise
synchronously, the chain is a left-to-right fold; message deliveries can be
interleaved anywhere, which the schedule below makes explicit. -/

/-- A queued action: the original call arguments, the driver method name and
the correlation callback built at declaration time. -/
structure ActionCall where
  opts : List JsVal
  driverMethod : String
  cb : Listener
deriving DecidableEq, Repr

/-- How a queue entry's promise settled. -/
inductive Settlement where
  | resolved
  | rejected
deriving DecidableEq, Repr

/-- State threaded through a test run: the unit state, the listeners
registered on the shared channel, the trace of driver method invocations
(in invocation order, with the appended uuid) and a fresh-uuid counter. -/
structure RunState where
  unit : UnitState := {}
  listeners : List Listener := []
  invocations : List (String × List JsVal) := []
  uuidCounter : Nat := 0
deriving DecidableEq, Repr

/-- The model's stream of `uuid()` values. -/
def freshUuid (n : Nat) : String := "uuid" ++ toString n

/-- Run one queued closure (`Actions.prototype._addToActionQueue`): push a
fresh uuid onto the arguments; if the driver has the method, invoke it and
resolve, else reject; in both branches subscribe the callback. -/
def runActionEntry (driver : List String) (c : ActionCall) (s : RunState) :
    RunState × Settlement :=
  let args := c.opts ++ [JsVal.str (freshUuid s.uuidCounter)]
  let s := { s with uuidCounter := s.uuidCounter + 1 }
  if c.driverMethod ∈ driver then
    ({ s with
        invocations := s.invocations ++ [(c.driverMethod, args)],
        listeners := s.listeners ++ [c.cb] }, .resolved)
  else
    ({ s with listeners := s.listeners ++ [c.cb] }, .rejected)

/-- An event of the cooperative event loop: run the next queue entry, or
deliver a driver result message to the registered listeners. -/
inductive SchedEv where
  | runNext
  | deliverEv (m : ResultMessage)
deriving DecidableEq, Repr

/-- Execute a schedule against the remaining queue. A resolved entry lets
the chain continue; a rejected entry triggers the `.fail` handler of
`_testFinished`, which logs and calls `process.exit(0)` — modelled by
stopping with the alive flag `false`. Returns the final state, the entries
never run, and the alive flag. -/
def runSched (driver : List String) :
    List SchedEv → List ActionCall → RunState →
    RunState × List ActionCall × Bool
  | [], q, s => (s, q, true)
  | .runNext :: evs, [], s => runSched driver evs [] s
  | .runNext :: evs, c :: q, s =>
    match runActionEntry driver c s with
    | (s, .resolved) => runSched driver evs q s
    | (s, .rejected) => (s, q, false)
  | .deliverEv m :: evs, q, s =>
    runSched driver evs q { s with unit := deliverMessage s.listeners m s.unit }

/-- Number of queue steps in a schedule. -/
def numRunNext : List SchedEv → Nat
  | [] => 0
  | .runNext :: evs => numRunNext evs + 1
  | .deliverEv _ :: evs => numRunNext evs

/-! ## The test unit's expectation counter (`lib/dalek/unit.js`) -/

/-- Embeds `Unit.prototype.expect`: `this.expectation = parseInt(expectation, 10)`
(on an integer argument `parseInt` is the identity; the initial `null` is
`none`). -/
def expectSet (n : Int) : Option Int := some n

/-- Embeds `Unit.prototype.checkExpectations`:
`this.expectation === null || !this.expectation ||
(this.runnedExpactations === this.expectation)` — note that the JS
truthiness check `!this.expectation` also accepts a declared expectation of
`0`. -/
def checkExpectations (expectation : Option Int) (runnedExpactations : Nat) :
    Bool :=
  match expectation with
  | none => true
  | some e => if e = 0 then true else ((runnedExpactations : Int) = e)

/-! ## The remote host tunnel (`lib/dalek/host.js`) -/

/-- The tunnel's session state: the configured secret, the secret sent by
the remote caller, and the caller address recorded at launch time. -/
structure HostState where
  secret : Option String := none
  remoteSecret : Option String := none
  remoteId : Option String := none
deriving DecidableEq, Repr

/-- An incoming HTTP request as the tunnel sees it: url, source address,
optional `secret-token` header, and the request body chunks. -/
structure HttpRequest where
  url : String := ""
  remoteAddress : String := ""
  secretToken : Option String := none
  bodyChunks : List String := []
deriving DecidableEq, Repr

/-- Outcome of the launch branch of `_createServer`: the
`{error: 'Secrets do not match'}` body, or `_launcher` proceeding with the
extracted browser id. -/
inductive LaunchResponse where
  | secretsError
  | launchStarted (browser : String)
deriving DecidableEq, Repr

/-- Split a character list around the first occurrence of `pat`: the part
before it and the part after it. -/
def splitFirst (pat : List Char) : List Char → Option (List Char × List Char)
  | [] => if pat.isEmpty then some ([], []) else none
  | c :: cs =>
    if pat.isPrefixOf (c :: cs) then some ([], (c :: cs).drop pat.length)
    else
      match splitFirst pat cs with
      | some (b, a) => some (c :: b, a)
      | none => none

/-- JS `String.prototype.replace` with a string pattern: replace the first
occurrence only. -/
def replaceFirst (s pat repl : String) : String :=
  match splitFirst pat.data s.data with
  | some (b, a) => ⟨b ++ repl.data ++ a⟩
  | none => s

/-- Embeds `Host.prototype._extractBrowser`: `url.replace('/dalek/launch/', '')`. -/
def extractBrowser (url : String) : String :=
  replaceFirst url "/dalek/launch/" ""

/-- The `/dalek/launch/` branch of `Host.prototype._createServer`
(lines 321–338): store the caller's address as `remoteId`, store the
`secret-token` header (when present) as `remoteSecret`, then compare
`this.secret === this.remoteSecret` (strict equality, `null` only equal to
`null`): on match call `_launcher`, on mismatch answer the error body. -/
def handleLaunch (s : HostState) (r : HttpRequest) :
    HostState × LaunchResponse :=
  let s := { s with remoteId := some r.remoteAddress }
  let s : HostState :=
    match r.secretToken with
    | some t => { s with remoteSecret := some t }
    | none => s
  if s.secret = s.remoteSecret then (s, .launchStarted (extractBrowser r.url))
  else (s, .secretsError)

/-- Outcome of the proxy branch for one request: the chunks forwarded to the
locally running webdriver endpoint, and the body relayed back to the remote
caller (`none` = the connection was closed with an empty body). -/
structure ProxyResult where
  forwardedBody : List String
  relayedBody : Option String
deriving DecidableEq, Repr

/-- The proxy branch: `_createServer` (lines 342–346) unconditionally opens
the outbound request and pipes every inbound body chunk through
(`_onRequestDataChunk`); only in the response callback `_onProxyRequest`
(lines 376–390) is `this.remoteId !== request.connection.remoteAddress`
checked — on mismatch the caller's connection is closed with an empty body
and the local response is not relayed; on match `_onProxyRequestEnd` joins
the local response chunks and writes them back. `localChunks` is the body
the local endpoint answered with. -/
def handleProxy (s : HostState) (r : HttpRequest) (localChunks : List String) :
    ProxyResult :=
  { forwardedBody := r.bodyChunks,
    relayedBody :=
      if s.remoteId = some r.remoteAddress then some (String.join localChunks)
      else none }

/-! ## Theorems -/

/-- C6, counterexample: `expect(0)` with 3 assertions run — the claim says
`checkExpectations()` must be false whenever the declared `n` differs from
the number of assertions run, but the `!this.expectation` truthiness check
makes a declared expectation of `0` pass. -/
theorem checkExpectations_zero_counterexample :
    checkExpectations (expectSet 0) 3 = true := rfl

/-- C6 (amended): `checkExpectations()` is true when no expectation was
declared, when the declared expectation is `0` (swallowed by the JS
truthiness test `!this.expectation`), or when the declared value equals the
number of assertions run; for a nonzero declared value different from the
run count it is false. -/
theorem checkExpectations_amended (e : Int) (r : Nat) :
    checkExpectations none r = true ∧
    checkExpectations (expectSet 0) r = true ∧
    ((r : Int) = e → checkExpectations (expectSet e) r = true) ∧
    (e ≠ 0 → (r : Int) ≠ e → checkExpectations (expectSet e) r = false) := by
  refine ⟨rfl, rfl, ?_, ?_⟩
  · intro h
    simp [checkExpectations, expectSet, h]
  · intro h0 hne
    simp [checkExpectations, expectSet, h0, hne]

/-- C6 witness: `expect(2)` with 3 assertions run is rejected, `expect(3)`
with 3 run is accepted. -/
theorem checkExpectations_amended_witness :
    checkExpectations none 3 = true ∧
    checkExpectations (expectSet 0) 3 = true ∧
    ((3 : Nat) : Int) = 3 ∧ checkExpectations (expectSet 3) 3 = true ∧
    (2 : Int) ≠ 0 ∧ ((3 : Nat) : Int) ≠ 2 ∧
    checkExpectations (expectSet 2) 3 = false :=
  ⟨(checkExpectations_amended 3 3).1, (checkExpectations_amended 3 3).2.1,
    by decide, (checkExpectations_amended 3 3).2.2.1 (by decide),
    by decide, by decide,
    (checkExpectations_amended 2 3).2.2.2 (by decide) (by decide)⟩

/-- C9, counterexample: the `.gte(e)` helper is implemented as
`_testGreaterThan(e - 1, v)`, so with cached value `v = 2` and expected
`e = 2.5` it reports success (`2 > 1.5`) although `v ≥ e` is false — the
claimed "success iff v ≥ e" fails on non-integers. -/
theorem gte_counterexample :
    testGreaterThanEqual (.num (5 / 2)) (.num 2) = true ∧
    ¬ ((2 : Rat) ≥ 5 / 2) := by
  constructor
  · simp [testGreaterThanEqual, testGreaterThan, jsSubOne, toNumber, jsGt]
    norm_num
  · norm_num

/-- C9 (amended): on numbers, the `.gte(e)` helper reports success iff
`v > e - 1` (it is `gt(e - 1)` and does not forward `parseFloatOnValues`),
which coincides with `v ≥ e` exactly on integer operands; and with
`parseFloatOnValues` declared, the `gt`/`lt` comparisons pre-parse both
operands as floating point before comparing. -/
theorem gte_gt_amended :
    (∀ e v : Rat,
      testGreaterThanEqual (.num e) (.num v) = true ↔ e - 1 < v) ∧
    (∀ e v : Int,
      testGreaterThanEqual (.num (e : Rat)) (.num (v : Rat)) = true ↔ e ≤ v) ∧
    (∀ a b : JsVal,
      testGreaterThan a b true =
        testGreaterThan (parseFloatJs a) (parseFloatJs b) false ∧
      testLowerThan a b true =
        testLowerThan (parseFloatJs a) (parseFloatJs b) false) := by
  have hq : ∀ e v : Rat,
      testGreaterThanEqual (.num e) (.num v) = true ↔ e - 1 < v := by
    intro e v
    simp [testGreaterThanEqual, testGreaterThan, jsSubOne, toNumber, jsGt]
  refine ⟨hq, ?_, ?_⟩
  · intro e v
    rw [hq]
    rw [show ((e : Rat) - 1) = ((e - 1 : Int) : Rat) by push_cast; ring]
    rw [Int.cast_lt]
    omega
  · intro a b
    exact ⟨rfl, rfl⟩

/-- C2, counterexample: a launch request with a wrong `secret-token` gets
the `Secrets do not match` body, but the caller's address has already been
stored as `remoteId` (line 324 of `host.js` runs before the secret check),
so a later proxied call from that very IP passes the remote-id gate and the
local response is relayed to it. -/
theorem launch_wrong_secret_counterexample :
    (handleLaunch { secret := some "opensesame" }
        { url := "/dalek/launch/chrome", remoteAddress := "10.0.0.7",
          secretToken := some "wrong" }).2 = .secretsError ∧
    (handleLaunch { secret := some "opensesame" }
        { url := "/dalek/launch/chrome", remoteAddress := "10.0.0.7",
          secretToken := some "wrong" }).1.remoteId = some "10.0.0.7" ∧
    (handleProxy
        (handleLaunch { secret := some "opensesame" }
          { url := "/dalek/launch/chrome", remoteAddress := "10.0.0.7",
            secretToken := some "wrong" }).1
        { url := "/session/42/url", remoteAddress := "10.0.0.7",
          bodyChunks := ["payload"] }
        ["localresponse"]).relayedBody = some "localresponse" :=
  ⟨rfl, rfl, rfl⟩

/-- C2 (amended): a launch request whose `secret-token` does not match the
configured secret is answered with the `Secrets do not match` body and no
browser is launched, but the tunnel has already recorded the caller's
address as `remoteId` and the header as `remoteSecret`; a later proxied call
from that same IP therefore passes the remote-id gate and is relayed. -/
theorem launch_wrong_secret_amended (s : HostState) (r : HttpRequest)
    (t : String) (htok : r.secretToken = some t) (hs : s.secret ≠ some t) :
    (handleLaunch s r).2 = .secretsError ∧
    (handleLaunch s r).1.remoteId = some r.remoteAddress ∧
    (handleLaunch s r).1.remoteSecret = some t ∧
    ∀ (r2 : HttpRequest) (localChunks : List String),
      r2.remoteAddress = r.remoteAddress →
      (handleProxy (handleLaunch s r).1 r2 localChunks).relayedBody =
        some (String.join localChunks) := by
  have h1 : handleLaunch s r =
      ({ s with remoteId := some r.remoteAddress, remoteSecret := some t },
        .secretsError) := by
    simp only [handleLaunch, htok]
    rw [if_neg]
    simpa using hs
  refine ⟨by rw [h1], by rw [h1], by rw [h1], ?_⟩
  intro r2 localChunks h2
  rw [h1]
  simp [handleProxy, h2]

/-- C2 witness. -/
theorem launch_wrong_secret_amended_witness :
    ({ url := "/dalek/launch/chrome", remoteAddress := "10.0.0.7",
       secretToken := some "wrong" } : HttpRequest).secretToken =
        some "wrong" ∧
    ({ secret := some "opensesame" } : HostState).secret ≠ some "wrong" ∧
    (handleLaunch { secret := some "opensesame" }
        { url := "/dalek/launch/chrome", remoteAddress := "10.0.0.7",
          secretToken := some "wrong" }).1.remoteSecret = some "wrong" :=
  ⟨rfl, by decide,
    (launch_wrong_secret_amended { secret := some "opensesame" }
      { url := "/dalek/launch/chrome", remoteAddress := "10.0.0.7",
        secretToken := some "wrong" } "wrong" rfl (by decide)).2.2.1⟩

/-- C3, counterexample: a proxied request from an address other than the
recorded `remoteId` is answered with an empty closed connection, but its
body has already been piped to the local webdriver endpoint — the IP check
sits in the response callback, after the outbound request was opened and the
inbound data forwarded. -/
theorem proxy_mismatch_counterexample :
    (handleProxy { remoteId := some "10.0.0.7" }
        { url := "/session/42/element", remoteAddress := "99.9.9.9",
          bodyChunks := ["GETDATA"] }
        ["secretbody"]).forwardedBody = ["GETDATA"] ∧
    (handleProxy { remoteId := some "10.0.0.7" }
        { url := "/session/42/element", remoteAddress := "99.9.9.9",
          bodyChunks := ["GETDATA"] }
        ["secretbody"]).relayedBody = none :=
  ⟨rfl, rfl⟩

/-- C3 (amended): for a proxied request whose source address differs from
the recorded `remoteId`, the tunnel closes the caller's connection with an
empty body and relays nothing of the local response — but the inbound
request body is still forwarded verbatim to the locally running webdriver
endpoint, because the address check only happens in the response callback. -/
theorem proxy_mismatch_amended (s : HostState) (r : HttpRequest)
    (localChunks : List String) (h : s.remoteId ≠ some r.remoteAddress) :
    (handleProxy s r localChunks).relayedBody = none ∧
    (handleProxy s r localChunks).forwardedBody = r.bodyChunks := by
  simp [handleProxy, h]

/-- C3 witness. -/
theorem proxy_mismatch_amended_witness :
    ({ remoteId := some "10.0.0.7" } : HostState).remoteId ≠
      some ({ url := "/session/42/element", remoteAddress := "99.9.9.9",
              bodyChunks := ["GETDATA"] } : HttpRequest).remoteAddress ∧
    (handleProxy { remoteId := some "10.0.0.7" }
        { url := "/session/42/element", remoteAddress := "99.9.9.9",
          bodyChunks := ["GETDATA"] }
        ["secretbody"]).relayedBody = none :=
  ⟨by decide,
    (proxy_mismatch_amended { remoteId := some "10.0.0.7" }
      { url := "/session/42/element", remoteAddress := "99.9.9.9",
        bodyChunks := ["GETDATA"] }
      ["secretbody"] (by decide)).1⟩

/-- C8, counterexample: with no configured secret, a launch request that
carries any `secret-token` header is rejected with the secrets-mismatch
error — the check is the strict comparison `null === remoteSecret`, not a
skip. -/
theorem launch_no_secret_counterexample :
    (handleLaunch {}
        { url := "/dalek/launch/firefox", remoteAddress := "10.0.0.1",
          secretToken := some "anytoken" }).2 = .secretsError := rfl

/-- C8 (amended): when no secret is configured the tunnel still compares;
a launch request without a `secret-token` header (and with no previously
stored `remoteSecret`) proceeds to launch the extracted browser, while a
launch request carrying any `secret-token` header is answered with the
secrets-mismatch error, since `null` strictly equals only `null`. -/
theorem launch_no_secret_amended (s : HostState) (r : HttpRequest)
    (hsec : s.secret = none) :
    (r.secretToken = none → s.remoteSecret = none →
      (handleLaunch s r).2 = .launchStarted (extractBrowser r.url)) ∧
    (∀ t, r.secretToken = some t → (handleLaunch s r).2 = .secretsError) := by
  constructor
  · intro h1 h2
    simp [handleLaunch, h1, h2, hsec]
  · intro t ht
    simp [handleLaunch, ht, hsec]

/-- C8 witness: default state, one launch without header, one with. -/
theorem launch_no_secret_amended_witness :
    ({} : HostState).secret = none ∧
    ({ url := "/dalek/launch/firefox", remoteAddress := "10.0.0.1" } :
        HttpRequest).secretToken = none ∧
    ({} : HostState).remoteSecret = none ∧
    (handleLaunch {}
        { url := "/dalek/launch/firefox", remoteAddress := "10.0.0.1" }).2 =
      .launchStarted "firefox" :=
  ⟨rfl, rfl, rfl, by
    have h := (launch_no_secret_amended {}
      { url := "/dalek/launch/firefox", remoteAddress := "10.0.0.1" }
      rfl).1 rfl rfl
    rw [show extractBrowser "/dalek/launch/firefox" = "firefox" from by decide] at h
    exact h⟩

/-! ### Behaviour of single deliveries (helper lemmas) -/

/-- A matching message makes the base assertion callback cache the result
and, unless the no-expected/getter-key guard fires, run the comparison and
bump the counters. -/
theorem deliverAssertion_matched (key atype : String) (fn : TestFn)
    (hash : String) (opts : AssertOpts) (m : ResultMessage) (u : UnitState)
    (hk : m.key = key) (hh : m.hash = hash) :
    deliverAssertion key atype fn hash opts m u =
      (let la : LastAction :=
        { key := key, atype := atype, hash := hash, value := m.value }
       let tr := applyTestFn fn m.value opts.expected opts.parseFloatOnValues
       if jsTruthy opts.expected = false ∧ key ∈ getterKeys then
         { u with lastGeneratedAction := some la }
       else
         { u with lastGeneratedAction := some la,
                  reports := u.reports ++ [{ success := tr, rtype := atype }],
                  runnedExpactations := u.runnedExpactations + 1,
                  failedAssertions :=
                    u.failedAssertions + (if tr then 0 else 1) }) := by
  simp only [deliverAssertion, hk, hh, and_self, if_true]

/-- A chained-helper listener fires when the cached action's hash matches
the captured one and its `proceeded` key is unset. -/
theorem deliverHelper_fires (hash name : String) (fn : TestFn) (negate : Bool)
    (expected : JsVal) (u : UnitState) (la : LastAction)
    (hla : u.lastGeneratedAction = some la) (hh : la.hash = hash)
    (hne : hash ≠ "") (hp : (hash ++ name) ∉ u.proceeded) :
    deliverHelper (some hash) name fn negate expected u =
      (let tr0 := applyTestFn fn expected la.value false
       let tr := if negate then !tr0 else tr0
       { u with proceeded := u.proceeded ++ [hash ++ name],
                reports := u.reports ++ [{ success := tr, rtype := la.atype }],
                runnedExpactations := u.runnedExpactations + 1,
                failedAssertions :=
                  u.failedAssertions + (if tr then 0 else 1) }) := by
  subst hh
  simp only [deliverHelper, hla]
  rw [if_pos ⟨hne, hne, by trivial, hp⟩]

/-- A chained-helper listener does nothing once its `proceeded` key is
set. -/
theorem deliverHelper_skips (hash name : String) (fn : TestFn) (negate : Bool)
    (expected : JsVal) (u : UnitState) (la : LastAction)
    (hla : u.lastGeneratedAction = some la) (hh : la.hash = hash)
    (hp : (hash ++ name) ∈ u.proceeded) :
    deliverHelper (some hash) name fn negate expected u = u := by
  subst hh
  simp only [deliverHelper, hla]
  rw [if_neg]
  intro hc
  exact hc.2.2.2 hp

/-! ### C10: base assertion callbacks have no dedup set -/

/-- C10, counterexample: the claim says every base-assertion callback
increments `runnedExpectations` on each matching delivery, but a `text`
assertion declared without an expected value (the usual `.is()` chaining
pattern) processes the matching message — it caches it as the last
generated action — without incrementing anything. -/
theorem base_assertion_getter_counterexample :
    (deliver (.assertionCb "text" "text" .shallowEquals "h1" {})
        { key := "text", hash := "h1", uuid := "u1", value := .str "X" }
        {}).runnedExpactations = 0 ∧
    (deliver (.assertionCb "text" "text" .shallowEquals "h1" {})
        { key := "text", hash := "h1", uuid := "u1", value := .str "X" }
        {}).lastGeneratedAction =
      some { key := "text", atype := "text", hash := "h1",
             value := .str "X" } :=
  ⟨rfl, rfl⟩

/-- C10 (amended): base assertion callbacks whose comparison actually runs —
a truthy expected value, or a key outside the getter-key list — have no
dedup set: every matching delivery increments `runnedExpectations` by one,
so delivering the same matching message twice increments it twice; only for
assertions with a falsy expected value on a getter-style key does the
callback return early without counting. -/
theorem base_assertion_no_dedup_amended (key atype : String) (fn : TestFn)
    (hash : String) (opts : AssertOpts) (mval : JsVal) (mu : String)
    (u : UnitState)
    (h : jsTruthy opts.expected = true ∨ key ∉ getterKeys) :
    (deliver (.assertionCb key atype fn hash opts)
        { key := key, hash := hash, uuid := mu, value := mval }
        u).runnedExpactations = u.runnedExpactations + 1 ∧
    (deliver (.assertionCb key atype fn hash opts)
        { key := key, hash := hash, uuid := mu, value := mval }
        (deliver (.assertionCb key atype fn hash opts)
          { key := key, hash := hash, uuid := mu, value := mval }
          u)).runnedExpactations = u.runnedExpactations + 2 := by
  have hg : ¬ (jsTruthy opts.expected = false ∧ key ∈ getterKeys) := by
    rcases h with h | h
    · intro hc
      rw [h] at hc
      exact absurd hc.1 (by simp)
    · intro hc
      exact h hc.2
  have step : ∀ v : UnitState,
      (deliver (.assertionCb key atype fn hash opts)
        { key := key, hash := hash, uuid := mu, value := mval }
        v).runnedExpactations = v.runnedExpactations + 1 := by
    intro v
    rw [show deliver (.assertionCb key atype fn hash opts)
        { key := key, hash := hash, uuid := mu, value := mval } v =
        deliverAssertion key atype fn hash opts
          { key := key, hash := hash, uuid := mu, value := mval } v from rfl]
    rw [deliverAssertion_matched key atype fn hash opts _ v rfl rfl]
    simp only [hg, if_false]
  refine ⟨step u, ?_⟩
  rw [step _, step u]

/-- C10 witness: an `exists` assertion (key outside the getter list) whose
matching `true` message is delivered twice counts two assertions. -/
theorem base_assertion_no_dedup_amended_witness :
    (jsTruthy (AssertOpts.mk .undef false "").expected = true ∨
      "exists" ∉ getterKeys) ∧
    (deliver (.assertionCb "exists" "exists" .truthy "h7" {})
        { key := "exists", hash := "h7", uuid := "u1", value := .str "true" }
        (deliver (.assertionCb "exists" "exists" .truthy "h7" {})
          { key := "exists", hash := "h7", uuid := "u1", value := .str "true" }
          {})).runnedExpactations = 0 + 2 :=
  ⟨by decide,
    (base_assertion_no_dedup_amended "exists" "exists" .truthy "h7" {}
      (.str "true") "u1" {} (by decide)).2⟩

/-! ### C4: chained helpers run exactly once per assertion -/

/-- C4: for an assertion refined by a chained helper (the canonical
`assert.<getterOrAny>(sel).is(x)` wiring: the issuing assertion's callback
followed by the helper's listener on the shared channel), delivering the
same matching ResultMessage twice makes the helper run its comparison and
increment `runnedExpactations` exactly once — the second delivery is stopped
by the `proceeded[hash + helperName]` key — while the base callback
contributes its usual share on each delivery. -/
theorem helper_dedup_on_redelivery
    (key atype hash name : String) (fnB fnH : TestFn) (optsB : AssertOpts)
    (negate : Bool) (expectedH mval : JsVal) (hmsg mu : String)
    (u : UnitState) (hhash : hash ≠ "")
    (hproc : (hash ++ name) ∉ u.proceeded) :
    (deliverMessage
        [.assertionCb key atype fnB hash optsB,
         .helperCb (some hash) name fnH negate expectedH hmsg]
        { key := key, hash := hash, uuid := mu, value := mval }
        (deliverMessage
          [.assertionCb key atype fnB hash optsB,
           .helperCb (some hash) name fnH negate expectedH hmsg]
          { key := key, hash := hash, uuid := mu, value := mval }
          u)).runnedExpactations =
      u.runnedExpactations +
        2 * (if jsTruthy optsB.expected = false ∧ key ∈ getterKeys
             then 0 else 1) + 1 ∧
    (deliverMessage
        [.assertionCb key atype fnB hash optsB,
         .helperCb (some hash) name fnH negate expectedH hmsg]
        { key := key, hash := hash, uuid := mu, value := mval }
        (deliverMessage
          [.assertionCb key atype fnB hash optsB,
           .helperCb (some hash) name fnH negate expectedH hmsg]
          { key := key, hash := hash, uuid := mu, value := mval }
          u)).proceeded = u.proceeded ++ [hash ++ name] := by
  have hDM : ∀ v : UnitState,
      deliverMessage
        [.assertionCb key atype fnB hash optsB,
         .helperCb (some hash) name fnH negate expectedH hmsg]
        { key := key, hash := hash, uuid := mu, value := mval } v =
      deliverHelper (some hash) name fnH negate expectedH
        (deliverAssertion key atype fnB hash optsB
          { key := key, hash := hash, uuid := mu, value := mval } v) :=
    fun _ => rfl
  have hBase : ∀ v : UnitState,
      (deliverAssertion key atype fnB hash optsB
          { key := key, hash := hash, uuid := mu, value := mval } v).proceeded
        = v.proceeded ∧
      (deliverAssertion key atype fnB hash optsB
          { key := key, hash := hash, uuid := mu, value := mval }
          v).lastGeneratedAction =
        some { key := key, atype := atype, hash := hash, value := mval } ∧
      (deliverAssertion key atype fnB hash optsB
          { key := key, hash := hash, uuid := mu, value := mval }
          v).runnedExpactations =
        v.runnedExpactations +
          (if jsTruthy optsB.expected = false ∧ key ∈ getterKeys
           then 0 else 1) := by
    intro v
    rw [deliverAssertion_matched key atype fnB hash optsB _ v rfl rfl]
    by_cases hg : jsTruthy optsB.expected = false ∧ key ∈ getterKeys
    · simp [hg]
    · simp [hg]
  have hHelp : ∀ v : UnitState,
      v.lastGeneratedAction =
        some { key := key, atype := atype, hash := hash, value := mval } →
      (hash ++ name) ∉ v.proceeded →
      (deliverHelper (some hash) name fnH negate expectedH v).proceeded =
        v.proceeded ++ [hash ++ name] ∧
      (deliverHelper (some hash) name fnH negate expectedH
          v).lastGeneratedAction = v.lastGeneratedAction ∧
      (deliverHelper (some hash) name fnH negate expectedH
          v).runnedExpactations = v.runnedExpactations + 1 := by
    intro v hla hp
    rw [deliverHelper_fires hash name fnH negate expectedH v _ hla rfl hhash hp]
    simp
  obtain ⟨p1, l1, r1⟩ := hBase u
  obtain ⟨p2, l2, r2⟩ := hHelp _ l1 (by rw [p1]; exact hproc)
  obtain ⟨p3, l3, r3⟩ := hBase (deliverHelper (some hash) name fnH negate
    expectedH (deliverAssertion key atype fnB hash optsB
      { key := key, hash := hash, uuid := mu, value := mval } u))
  have hskip := deliverHelper_skips hash name fnH negate expectedH
    (deliverAssertion key atype fnB hash optsB
      { key := key, hash := hash, uuid := mu, value := mval }
      (deliverHelper (some hash) name fnH negate expectedH
        (deliverAssertion key atype fnB hash optsB
          { key := key, hash := hash, uuid := mu, value := mval } u)))
    { key := key, atype := atype, hash := hash, value := mval }
    l3 rfl (by rw [p3, p2, p1]; simp)
  constructor
  · rw [hDM, hDM, hskip, r3, r2, r1]
    ring
  · rw [hDM, hDM, hskip, p3, p2, p1]

/-- C4 witness: `assert.text('#n')` chained with `.is('Navigation')`;
the matching text result delivered twice counts exactly one assertion and
marks `h1is` as proceeded. -/
theorem helper_dedup_on_redelivery_witness :
    ("h1" : String) ≠ "" ∧
    ("h1" ++ "is") ∉ ({} : UnitState).proceeded ∧
    (deliverMessage
        [.assertionCb "text" "text" .shallowEquals "h1" {},
         .helperCb (some "h1") "is" .shallowEquals false
           (.str "Navigation") ""]
        { key := "text", hash := "h1", uuid := "u1",
          value := .str "Navigation" }
        (deliverMessage
          [.assertionCb "text" "text" .shallowEquals "h1" {},
           .helperCb (some "h1") "is" .shallowEquals false
             (.str "Navigation") ""]
          { key := "text", hash := "h1", uuid := "u1",
            value := .str "Navigation" }
          {})).runnedExpactations =
      ({} : UnitState).runnedExpactations +
        2 * (if jsTruthy (AssertOpts.mk .undef false "").expected = false ∧
               "text" ∈ getterKeys then 0 else 1) + 1 :=
  ⟨by decide, by decide,
    (helper_dedup_on_redelivery "text" "text" "h1" "is" .shallowEquals
      .shallowEquals {} false (.str "Navigation") (.str "Navigation") "" "u1"
      {} (by decide) (by decide)).1⟩

/-! ### C5: messages with unmatched correlation ids -/

/-- A listener that provably cannot move the assertion counters on a
message with hash `mhash`: an assertion-layer base callback whose own hash
differs from it, or an action callback for a key other than `execute`.
Action callbacks ignore the message's `hash` entirely (they dedup on `uuid`
and `key`), and helper listeners ignore the message, so neither kind is
counter-neutral in general. -/
def counterNeutral (mhash : String) : Listener → Bool
  | .assertionCb _ _ _ hash _ => hash ≠ mhash
  | .actionCb key _ => key ≠ "execute"
  | .helperCb _ _ _ _ _ _ => false

/-- One delivery to a counter-neutral listener leaves both counters
unchanged. -/
theorem deliver_counterNeutral (l : Listener) (m : ResultMessage)
    (u : UnitState) (h : counterNeutral m.hash l = true) :
    (deliver l m u).runnedExpactations = u.runnedExpactations ∧
    (deliver l m u).failedAssertions = u.failedAssertions := by
  cases l with
  | assertionCb key atype fn hash opts =>
    simp only [counterNeutral, decide_eq_true_eq] at h
    have hc : ¬ (m.key = key ∧ m.hash = hash) := fun hc => h hc.2.symm
    simp [deliver, deliverAssertion, hc]
  | actionCb key atype =>
    simp only [counterNeutral, decide_eq_true_eq] at h
    by_cases hc : m.key = key ∧ m.uuid ∉ u.uuids
    · simp [deliver, deliverAction, hc, h]
    · simp [deliver, deliverAction, hc]
  | helperCb genHash name fn negate expected msg =>
    simp [counterNeutral] at h

/-- C5 (amended): a delivered ResultMessage whose hash matches no pending
command's correlation id leaves `runnedExpactations` and `failedAssertions`
unchanged across all registered assertion-layer base callbacks and all
non-`execute` action callbacks. (It is *not* a no-op across every callback:
`execute` action callbacks dedup on `uuid`/`key` and ignore the hash, and a
pending chained-helper listener fires on any message once its cached action
matches — see the counterexample.) -/
theorem unmatched_hash_amended (m : ResultMessage) (L : List Listener)
    (u : UnitState) (h : ∀ l ∈ L, counterNeutral m.hash l = true) :
    (deliverMessage L m u).runnedExpactations = u.runnedExpactations ∧
    (deliverMessage L m u).failedAssertions = u.failedAssertions := by
  induction L generalizing u with
  | nil => exact ⟨rfl, rfl⟩
  | cons l ls ih =>
    have h1 := deliver_counterNeutral l m u (h l (by simp))
    have h2 := ih (deliver l m u) (fun l' hl' => h l' (by simp [hl']))
    rw [show deliverMessage (l :: ls) m u =
      deliverMessage ls m (deliver l m u) from rfl]
    exact ⟨h2.1.trans h1.1, h2.2.trans h1.2⟩

/-- C5 witness: a `click` assertion callback with correlation id `h1` and a
`screenshot` action callback, hit by a message whose hash `h9` matches
neither — counters stay at zero. -/
theorem unmatched_hash_amended_witness :
    (∀ l ∈ [Listener.assertionCb "click" "click" TestFn.truthy "h1" {},
            Listener.actionCb "screenshot" "screenshot"],
      counterNeutral ({ key := "click", hash := "h9", uuid := "u5" } :
        ResultMessage).hash l = true) ∧
    (deliverMessage
        [Listener.assertionCb "click" "click" TestFn.truthy "h1" {},
         Listener.actionCb "screenshot" "screenshot"]
        { key := "click", hash := "h9", uuid := "u5" }
        {}).runnedExpactations = ({} : UnitState).runnedExpactations :=
  ⟨by decide,
    (unmatched_hash_amended { key := "click", hash := "h9", uuid := "u5" }
      [Listener.assertionCb "click" "click" TestFn.truthy "h1" {},
       Listener.actionCb "screenshot" "screenshot"]
      {} (by decide)).1⟩

/-- C5, counterexample: one `execute` action is issued (its appended
correlation uuid is `uuid0`); a message with key `execute`, a hash matching
no pending command and a fresh uuid still increments both counters, because
the action callback checks only `key` and the unseen-`uuid` dedup, never the
hash. -/
theorem unmatched_hash_counterexample :
    (runSched ["execute"] [.runNext,
        .deliverEv { key := "execute", hash := "nomatch", uuid := "uuidZ",
                     execTest := [{ ok := false, message := "in-browser" }] }]
      [{ opts := [.str "functionsource"], driverMethod := "execute",
         cb := .actionCb "execute" "execute" }]
      {}).1.invocations =
      [("execute", [.str "functionsource", .str "uuid0"])] ∧
    (runSched ["execute"] [.runNext,
        .deliverEv { key := "execute", hash := "nomatch", uuid := "uuidZ",
                     execTest := [{ ok := false, message := "in-browser" }] }]
      [{ opts := [.str "functionsource"], driverMethod := "execute",
         cb := .actionCb "execute" "execute" }]
      {}).1.unit.runnedExpactations = 1 ∧
    (runSched ["execute"] [.runNext,
        .deliverEv { key := "execute", hash := "nomatch", uuid := "uuidZ",
                     execTest := [{ ok := false, message := "in-browser" }] }]
      [{ opts := [.str "functionsource"], driverMethod := "execute",
         cb := .actionCb "execute" "execute" }]
      {}).1.unit.failedAssertions = 1 := by
  refine ⟨?_, ?_, ?_⟩ <;> decide

/-! ### C1: the action queue preserves declaration order -/

/-- C1: under any interleaving of queue steps and result-message deliveries
(the schedule), as long as every queued entry names a method the driver has
and the schedule contains enough queue steps, the run completes and the
driver's method-invocation order equals the chain's declaration order —
deliveries never reorder, duplicate or suppress invocations, because entry
n+1 runs only after entry n's promise settled and issuance resolves without
waiting for any result. -/
theorem action_queue_order (driver : List String) (sched : List SchedEv)
    (q : List ActionCall) (s : RunState)
    (hm : ∀ c ∈ q, c.driverMethod ∈ driver)
    (hn : q.length ≤ numRunNext sched) :
    ((runSched driver sched q s).1.invocations.map Prod.fst =
      s.invocations.map Prod.fst ++ q.map ActionCall.driverMethod) ∧
    (runSched driver sched q s).2.2 = true := by
  induction sched generalizing q s with
  | nil =>
    have hq : q = [] := by
      have : q.length = 0 := Nat.le_zero.mp hn
      exact List.eq_nil_of_length_eq_zero this
    subst hq
    simp [runSched]
  | cons ev evs ih =>
    cases ev with
    | runNext =>
      cases q with
      | nil =>
        have h := ih [] s (by simp) (by simp)
        rw [show runSched driver (.runNext :: evs) [] s =
          runSched driver evs [] s from rfl]
        simpa using h
      | cons c q' =>
        have hcd : c.driverMethod ∈ driver := hm c (by simp)
        have hstep : runActionEntry driver c s =
            ({ s with
                uuidCounter := s.uuidCounter + 1,
                invocations := s.invocations ++
                  [(c.driverMethod,
                    c.opts ++ [JsVal.str (freshUuid s.uuidCounter)])],
                listeners := s.listeners ++ [c.cb] }, .resolved) := by
          simp [runActionEntry, hcd]
        have hred : runSched driver (.runNext :: evs) (c :: q') s =
            runSched driver evs q'
              { s with
                uuidCounter := s.uuidCounter + 1,
                invocations := s.invocations ++
                  [(c.driverMethod,
                    c.opts ++ [JsVal.str (freshUuid s.uuidCounter)])],
                listeners := s.listeners ++ [c.cb] } := by
          rw [show runSched driver (.runNext :: evs) (c :: q') s =
            (match runActionEntry driver c s with
              | (s, .resolved) => runSched driver evs q' s
              | (s, .rejected) => (s, q', false)) from rfl, hstep]
        rw [hred]
        have h := ih q'
          { s with
            uuidCounter := s.uuidCounter + 1,
            invocations := s.invocations ++
              [(c.driverMethod,
                c.opts ++ [JsVal.str (freshUuid s.uuidCounter)])],
            listeners := s.listeners ++ [c.cb] }
          (fun c' hc' => hm c' (by simp [hc']))
          (by simpa [numRunNext] using hn)
        refine ⟨?_, h.2⟩
        rw [h.1]
        simp
    | deliverEv msg =>
      rw [show runSched driver (.deliverEv msg :: evs) q s =
        runSched driver evs q
          { s with unit := deliverMessage s.listeners msg s.unit } from rfl]
      have h := ih q { s with unit := deliverMessage s.listeners msg s.unit }
        hm (by simpa [numRunNext] using hn)
      exact h

/-- C1 witness: three actions with result deliveries interleaved before,
between and after the queue steps still invoke `open`, `click`, `type` in
declaration order. -/
theorem action_queue_order_witness :
    (∀ c ∈ [({ opts := [.str "page"], driverMethod := "open",
               cb := .actionCb "open" "open" } : ActionCall),
            { opts := [.str "#a"], driverMethod := "click",
              cb := .actionCb "click" "click" },
            { opts := [.str "#in", .str "hi"], driverMethod := "type",
              cb := .actionCb "type" "type" }],
      c.driverMethod ∈ ["open", "click", "type"]) ∧
    ([({ opts := [.str "page"], driverMethod := "open",
         cb := .actionCb "open" "open" } : ActionCall),
      { opts := [.str "#a"], driverMethod := "click",
        cb := .actionCb "click" "click" },
      { opts := [.str "#in", .str "hi"], driverMethod := "type",
        cb := .actionCb "type" "type" }].length ≤
      numRunNext [.deliverEv { key := "late", hash := "x", uuid := "ux" },
        .runNext, .deliverEv { key := "open", hash := "y", uuid := "uy" },
        .runNext, .runNext,
        .deliverEv { key := "type", hash := "z", uuid := "uz" }]) ∧
    ((runSched ["open", "click", "type"]
        [.deliverEv { key := "late", hash := "x", uuid := "ux" },
         .runNext, .deliverEv { key := "open", hash := "y", uuid := "uy" },
         .runNext, .runNext,
         .deliverEv { key := "type", hash := "z", uuid := "uz" }]
        [{ opts := [.str "page"], driverMethod := "open",
           cb := .actionCb "open" "open" },
         { opts := [.str "#a"], driverMethod := "click",
           cb := .actionCb "click" "click" },
         { opts := [.str "#in", .str "hi"], driverMethod := "type",
           cb := .actionCb "type" "type" }]
        {}).1.invocations.map Prod.fst =
      ({} : RunState).invocations.map Prod.fst ++
        [({ opts := [.str "page"], driverMethod := "open",
            cb := .actionCb "open" "open" } : ActionCall),
         { opts := [.str "#a"], driverMethod := "click",
           cb := .actionCb "click" "click" },
         { opts := [.str "#in", .str "hi"], driverMethod := "type",
           cb := .actionCb "type" "type" }].map ActionCall.driverMethod) :=
  ⟨by decide, by decide,
    (action_queue_order ["open", "click", "type"]
      [.deliverEv { key := "late", hash := "x", uuid := "ux" },
       .runNext, .deliverEv { key := "open", hash := "y", uuid := "uy" },
       .runNext, .runNext,
       .deliverEv { key := "type", hash := "z", uuid := "uz" }]
      [{ opts := [.str "page"], driverMethod := "open",
         cb := .actionCb "open" "open" },
       { opts := [.str "#a"], driverMethod := "click",
         cb := .actionCb "click" "click" },
       { opts := [.str "#in", .str "hi"], driverMethod := "type",
         cb := .actionCb "type" "type" }]
      {} (by decide) (by decide)).1⟩

/-! ### C7: a missing driver method -/

/-- Driver with only a `click` method, for the C7 counterexample. -/
def clickOnlyDriver : List String := ["click"]

/-- First queued entry of the C7 counterexample: its method is absent from
the driver. -/
def missingCall : ActionCall :=
  { opts := [.str "#a"], driverMethod := "missingMethod",
    cb := .actionCb "missingMethod" "missingMethod" }

/-- Second queued entry of the C7 counterexample: a perfectly fine click. -/
def clickCall : ActionCall :=
  { opts := [.str "#b"], driverMethod := "click",
    cb := .actionCb "click" "click" }

/-- C7, counterexample: with the first entry naming a missing driver method,
the run does not advance past it — the alive flag is false (`_testFinished`'s
`.fail` handler calls `process.exit(0)`), no driver method was ever invoked,
and the second entry is left unexecuted, contradicting "the queue still
advances ... with subsequent entries and tests still executing". -/
theorem missing_method_counterexample :
    (runSched clickOnlyDriver [.runNext, .runNext]
        [missingCall, clickCall] {}).2.2 = false ∧
    (runSched clickOnlyDriver [.runNext, .runNext]
        [missingCall, clickCall] {}).1.invocations = [] ∧
    (runSched clickOnlyDriver [.runNext, .runNext]
        [missingCall, clickCall] {}).2.1 = [clickCall] := by
  refine ⟨?_, ?_, ?_⟩ <;> decide

/-- C7 (amended): when the driver object lacks the named method, the queue
entry's promise is rejected (after still subscribing its correlation
callback), and the rejection is caught by `_testFinished`'s terminal `.fail`
handler, which logs the error and calls `process.exit(0)` — the queue does
not advance, and subsequent entries do not execute. -/
theorem missing_method_rejects_and_halts (driver : List String)
    (evs : List SchedEv) (c : ActionCall) (q : List ActionCall) (s : RunState)
    (h : c.driverMethod ∉ driver) :
    (runActionEntry driver c s).2 = .rejected ∧
    runSched driver (.runNext :: evs) (c :: q) s =
      ({ s with
          uuidCounter := s.uuidCounter + 1,
          listeners := s.listeners ++ [c.cb] }, q, false) := by
  have hstep : runActionEntry driver c s =
      ({ s with
          uuidCounter := s.uuidCounter + 1,
          listeners := s.listeners ++ [c.cb] }, .rejected) := by
    simp [runActionEntry, h]
  constructor
  · rw [hstep]
  · rw [show runSched driver (.runNext :: evs) (c :: q) s =
      (match runActionEntry driver c s with
        | (s, .resolved) => runSched driver evs q s
        | (s, .rejected) => (s, q, false)) from rfl, hstep]

/-- C7 witness: the same missing-method entry, under the general theorem. -/
theorem missing_method_rejects_and_halts_witness :
    missingCall.driverMethod ∉ clickOnlyDriver ∧
    (runActionEntry clickOnlyDriver missingCall {}).2 = .rejected :=
  ⟨by decide,
    (missing_method_rejects_and_halts clickOnlyDriver [.runNext]
      missingCall [clickCall] {} (by decide)).1⟩

end DalekSpec
